import Mathlib

/-
Shallow embedding of the rfs-pool repository (src/config.rs, src/mount.rs).

The repository's only entry point, `load_and_mount_pools`, reads a TOML
configuration from a path, bootstraps a default file when the path is
absent, validates the declared pools (non-empty, ids exactly 1..N after
sorting), probes reachability of non-removable pool paths (logging only),
and publishes the sorted pools into a process-wide registry.

The filesystem, the TOML deserializer and the logging sink are external
collaborators of the code; they are modelled as oracles in an `Env`
record. The mutable process state (the `POOLS` registry, the log sink,
the files and directories written, and the trace of observable effects)
is an explicit `World` threaded through the function.
-/

namespace RfsPool

/-- Log severities accepted by the logging collaborator (`rfs_utils::LogLevel`). -/
inductive LogLevel where
  | debug
  | info
  | warn
  | error
  deriving DecidableEq

/-- `Mount` from src/mount.rs: a FUSE mount point configuration. -/
structure Mount where
  pool_id : Nat
  mount_point : String
  deriving DecidableEq

/-- `Pool` from src/mount.rs: one managed storage location. -/
structure Pool where
  pool_id : Nat
  is_removable : Bool
  path : String
  deriving DecidableEq

/-- `PoolsFile` from src/mount.rs: the parsed shape of the configuration. -/
structure PoolsFile where
  pool : List Pool
  mount : List Mount
  deriving DecidableEq

/-- The record-of-records shape the TOML layer hands to the deserializer:
the `mount` section may be absent (`none`). -/
structure RawPoolsFile where
  pool : List Pool
  mount : Option (List Mount)
  deriving DecidableEq

/-- The serde deserialization of `PoolsFile`: the `#[serde(default)]`
attribute on the `mount` field (src/mount.rs) replaces an absent mount
section by the empty collection. -/
def parsePoolsFile (raw : RawPoolsFile) : PoolsFile :=
  { pool := raw.pool, mount := raw.mount.getD [] }

/-- `PoolError` from src/mount.rs. `Io` and `Toml` carry their underlying
cause, modelled as an opaque diagnostic string. -/
inductive PoolError where
  | EmptyPools
  | InvalidIdSequence
  | MustConfigure (path : String)
  | Io (cause : String)
  | Toml (cause : String)
  deriving DecidableEq

/-- Result of a successful metadata/stat probe (`tokio::fs::metadata`). -/
structure Meta where
  is_dir : Bool
  deriving DecidableEq

/-- Observable effects of one load, used to state ordering guarantees:
validation completing, one reachability probe per non-removable pool,
and the registry publication. -/
inductive Event where
  | validationDone
  | probe (id : Nat)
  | publish
  deriving DecidableEq

/-- The external collaborators (filesystem, TOML deserializer), as oracles. -/
structure Env where
  pathExists : String → Bool
  parent : String → Option String
  createDirAll : String → Except String Unit
  writeFile : String → String → Except String Unit
  readToString : String → Except String String
  parseToml : String → Except String PoolsFile
  statMeta : String → Except Unit Meta

/-- The mutable state visible to the program: the `POOLS` registry, the
log sink, the filesystem writes performed, and the event trace. -/
structure World where
  registry : List Pool
  logs : List (LogLevel × String)
  dirsCreated : List String
  fsWrites : List (String × String)
  events : List Event
  deriving DecidableEq

/-- The world at process start: the registry is initialized empty. -/
def emptyWorld : World :=
  { registry := [], logs := [], dirsCreated := [], fsWrites := [], events := [] }

/-- Appends one line to the log sink (the `log(level, msg)` collaborator). -/
def addLog (w : World) (lvl : LogLevel) (msg : String) : World :=
  { w with logs := w.logs ++ [(lvl, msg)] }

/-- `generate_default_pools_config` from src/config.rs: the fixed two-pool
default template. -/
def generate_default_pools_config : String :=
  "# Configuration for rfs storage pools.\n# Each pool represents a storage location that rfs will manage.\n\n[[pool]]\npool_id = 1\nis_removable = false\npath = \"/mnt/pool1\"\n\n[[pool]]\npool_id = 2\nis_removable = false\npath = \"/mnt/pool2\"\n"

/-- The bootstrap tail of `load_and_mount_pools`: write the default
template to the path, then fail with `MustConfigure`. -/
def writeDefault (env : Env) (path_str : String) (w : World) :
    World × Except PoolError (List Pool × List Mount) :=
  match env.writeFile path_str generate_default_pools_config with
  | Except.error e => (w, Except.error (PoolError.Io e))
  | Except.ok _ =>
    let w := { w with fsWrites := w.fsWrites ++ [(path_str, generate_default_pools_config)] }
    (w, Except.error (PoolError.MustConfigure path_str))

/-- The bootstrap branch of `load_and_mount_pools` (path does not exist):
warn, create the parent directories when the path has a parent, write the
default template, fail with `MustConfigure`. -/
def bootstrap (env : Env) (path_str : String) (w : World) :
    World × Except PoolError (List Pool × List Mount) :=
  let w := addLog w LogLevel.warn ("Pool config not found at " ++ path_str ++ ". Creating default.")
  match env.parent path_str with
  | some par =>
    match env.createDirAll par with
    | Except.error e => (w, Except.error (PoolError.Io e))
    | Except.ok _ =>
      let w := { w with dirsCreated := w.dirsCreated ++ [par] }
      writeDefault env path_str w
  | none => writeDefault env path_str w

/-- The id-sequence walk of `load_and_mount_pools`: position `i` (0-based)
must hold `pool_id = i + 1`. -/
def checkSeqFrom : Nat → List Pool → Bool
  | _, [] => true
  | i, p :: rest => (p.pool_id == i + 1) && checkSeqFrom (i + 1) rest

/-- The whole id-sequence check, starting at index 0. -/
def idsSequential (l : List Pool) : Bool :=
  checkSeqFrom 0 l

/-- `pools.sort_by_key(|p| p.pool_id)` from src/mount.rs. -/
def sortPools (l : List Pool) : List Pool :=
  l.mergeSort (fun a b => a.pool_id ≤ b.pool_id)

/-- One iteration of the reachability loop of `load_and_mount_pools`:
non-removable pools are probed with a metadata stat; a non-directory or
unreachable path logs one warning; removable pools are skipped. -/
def reachCheck (env : Env) (w : World) (p : Pool) : World :=
  if p.is_removable then w
  else
    let w := { w with events := w.events ++ [Event.probe p.pool_id] }
    match env.statMeta p.path with
    | Except.ok meta =>
      if meta.is_dir then w
      else
        addLog w LogLevel.warn
          ("Path for pool " ++ toString p.pool_id ++ " (" ++ p.path ++ ") exists but is not a directory.")
    | Except.error _ =>
      addLog w LogLevel.warn
        ("Path for pool " ++ toString p.pool_id ++ " (" ++ p.path ++ ") is not reachable.")

/-- `load_and_mount_pools` from src/mount.rs, as a function of the oracle
environment and the explicit world. The second component is the returned
`Result`; the first is the world after the call. -/
def load_and_mount_pools (env : Env) (path_str : String) (w : World) :
    World × Except PoolError (List Pool × List Mount) :=
  if env.pathExists path_str then
    let w := addLog w LogLevel.info ("Loading pools from " ++ path_str)
    match env.readToString path_str with
    | Except.error e => (w, Except.error (PoolError.Io e))
    | Except.ok content =>
      match env.parseToml content with
      | Except.error e => (w, Except.error (PoolError.Toml e))
      | Except.ok pools_from_file =>
        let pools := pools_from_file.pool
        let mounts := pools_from_file.mount
        if pools.isEmpty then (w, Except.error PoolError.EmptyPools)
        else
          let pools := sortPools pools
          if idsSequential pools then
            let w := addLog w LogLevel.debug ("Pool IDs are sequential and unique.")
            let w := { w with events := w.events ++ [Event.validationDone] }
            let w := List.foldl (reachCheck env) w pools
            let w := addLog w LogLevel.debug ("Pool path accessibility check complete.")
            let w := { w with registry := pools, events := w.events ++ [Event.publish] }
            let w := addLog w LogLevel.info ("Storage pools mounted successfully.")
            (w, Except.ok (pools, mounts))
          else (w, Except.error PoolError.InvalidIdSequence)
  else
    bootstrap env path_str w

/-- The id-sequence walk starting at index `i` succeeds exactly when the
ids read off the list are `i+1, i+2, …`. -/
lemma checkSeqFrom_eq_true_iff (l : List Pool) (i : Nat) :
    checkSeqFrom i l = true ↔ l.map Pool.pool_id = List.range' (i + 1) l.length := by
  induction l generalizing i with
  | nil => simp [checkSeqFrom]
  | cons p t ih =>
    simp [checkSeqFrom, List.range'_succ, ih (i + 1)]

/-- Sorting is a permutation of the input. -/
lemma sortPools_perm (l : List Pool) : (sortPools l).Perm l :=
  List.mergeSort_perm l _

/-- The sorted pool list is ascending in `pool_id`. -/
lemma sortPools_sorted (l : List Pool) :
    (sortPools l).Pairwise (fun a b => a.pool_id ≤ b.pool_id) := by
  have h2 : (sortPools l).Pairwise
      (fun a b : Pool => (decide (a.pool_id ≤ b.pool_id)) = true) := by
    apply List.sorted_mergeSort
    · intro a b c hab hbc
      simp only [decide_eq_true_eq] at hab hbc ⊢
      omega
    · intro a b
      simp [Nat.le_total]
  exact h2.imp (fun hab => by simpa using hab)

/-- The validator passes on the sorted list exactly when the ids of the
input form a permutation of `1..N`. -/
lemma idsSequential_sortPools_iff (l : List Pool) :
    idsSequential (sortPools l) = true ↔
      (l.map Pool.pool_id).Perm (List.range' 1 l.length) := by
  have hperm : ((sortPools l).map Pool.pool_id).Perm (l.map Pool.pool_id) :=
    (sortPools_perm l).map Pool.pool_id
  have hlen : (sortPools l).length = l.length := (sortPools_perm l).length_eq
  unfold idsSequential
  rw [checkSeqFrom_eq_true_iff, Nat.zero_add, hlen]
  constructor
  · intro he
    rw [← he]
    exact hperm.symm
  · intro hp
    have hs1 : ((sortPools l).map Pool.pool_id).Pairwise (· ≤ ·) :=
      List.pairwise_map.2 (sortPools_sorted l)
    have hs2 : (List.range' 1 l.length).Pairwise (· ≤ ·) :=
      List.pairwise_le_range' 1 l.length
    exact List.eq_of_perm_of_sorted (hperm.trans hp) hs1 hs2

/-- The bootstrap branch never touches the registry. -/
lemma bootstrap_registry (env : Env) (p : String) (w : World) :
    (bootstrap env p w).1.registry = w.registry := by
  unfold bootstrap writeDefault
  cases hpar : env.parent p with
  | none => cases hw : env.writeFile p generate_default_pools_config <;> simp [hw, addLog]
  | some par =>
    cases hc : env.createDirAll par with
    | error e => simp [hc, addLog]
    | ok u =>
      cases hw : env.writeFile p generate_default_pools_config <;> simp [hc, hw, addLog]

/-- The bootstrap branch emits no events. -/
lemma bootstrap_events (env : Env) (p : String) (w : World) :
    (bootstrap env p w).1.events = w.events := by
  unfold bootstrap writeDefault
  cases hpar : env.parent p with
  | none => cases hw : env.writeFile p generate_default_pools_config <;> simp [hw, addLog]
  | some par =>
    cases hc : env.createDirAll par with
    | error e => simp [hc, addLog]
    | ok u =>
      cases hw : env.writeFile p generate_default_pools_config <;> simp [hc, hw, addLog]

/-- The bootstrap branch always returns an error. -/
lemma bootstrap_isError (env : Env) (p : String) (w : World) :
    ∃ e, (bootstrap env p w).2 = Except.error e := by
  unfold bootstrap writeDefault
  cases hpar : env.parent p with
  | none => cases hw : env.writeFile p generate_default_pools_config <;> simp [hw, addLog]
  | some par =>
    cases hc : env.createDirAll par with
    | error e => simp [hc, addLog]
    | ok u =>
      cases hw : env.writeFile p generate_default_pools_config <;> simp [hc, hw, addLog]

/-- One reachability iteration appends exactly the probe event of a
non-removable pool to the trace. -/
lemma reachCheck_events (env : Env) (w : World) (p : Pool) :
    (reachCheck env w p).events =
      w.events ++ (if p.is_removable then [] else [Event.probe p.pool_id]) := by
  unfold reachCheck
  cases hp : p.is_removable with
  | true => simp
  | false =>
    cases hs : env.statMeta p.path with
    | ok meta => cases hm : meta.is_dir <;> simp [hs, hm, addLog]
    | error e => simp [hs, addLog]

/-- The reachability loop appends one probe event per non-removable pool,
in list order. -/
lemma foldl_reachCheck_events (env : Env) (l : List Pool) (w : World) :
    (List.foldl (reachCheck env) w l).events =
      w.events ++ (l.filter (fun q => !q.is_removable)).map (fun q => Event.probe q.pool_id) := by
  induction l generalizing w with
  | nil => simp
  | cons p t ih =>
    rw [List.foldl_cons, ih, reachCheck_events]
    cases hp : p.is_removable <;> simp [hp, List.filter_cons]

/-- On the success path (file present, parse succeeds, pools non-empty,
ids sequential after sorting) the call returns the sorted pools and the
parsed mounts. -/
lemma load_ok_snd (env : Env) (p content : String) (pf : PoolsFile) (w : World)
    (hex : env.pathExists p = true)
    (hread : env.readToString p = Except.ok content)
    (hparse : env.parseToml content = Except.ok pf)
    (hne : pf.pool.isEmpty = false)
    (hseq : idsSequential (sortPools pf.pool) = true) :
    (load_and_mount_pools env p w).2 = Except.ok (sortPools pf.pool, pf.mount) := by
  simp [load_and_mount_pools, hex, hread, hparse, hne, hseq]

/-- When the sorted ids are not `1..N`, the call returns `InvalidIdSequence`. -/
lemma load_invalid_snd (env : Env) (p content : String) (pf : PoolsFile) (w : World)
    (hex : env.pathExists p = true)
    (hread : env.readToString p = Except.ok content)
    (hparse : env.parseToml content = Except.ok pf)
    (hne : pf.pool.isEmpty = false)
    (hseq : idsSequential (sortPools pf.pool) = false) :
    (load_and_mount_pools env p w).2 = Except.error PoolError.InvalidIdSequence := by
  simp [load_and_mount_pools, hex, hread, hparse, hne, hseq]

/-- The result component of the bootstrap branch does not depend on the world. -/
lemma bootstrap_snd_indep (env : Env) (p : String) (w w' : World) :
    (bootstrap env p w).2 = (bootstrap env p w').2 := by
  unfold bootstrap writeDefault
  cases hpar : env.parent p with
  | none => cases hw : env.writeFile p generate_default_pools_config <;> simp [hw, addLog]
  | some par =>
    cases hc : env.createDirAll par with
    | error e => simp [hc, addLog]
    | ok u =>
      cases hw : env.writeFile p generate_default_pools_config <;> simp [hc, hw, addLog]

/-- Every call either fails, leaving the registry and the event trace
untouched, or succeeds with the sorted pools of some parsed file: the
registry then holds exactly those pools and the trace is validation,
then one probe per non-removable pool in sorted order, then the publish. -/
lemma load_master (env : Env) (p : String) (w : World) :
    ((load_and_mount_pools env p w).1.registry = w.registry ∧
      (load_and_mount_pools env p w).1.events = w.events ∧
      ∃ e, (load_and_mount_pools env p w).2 = Except.error e) ∨
    (∃ pf : PoolsFile,
      (load_and_mount_pools env p w).2 = Except.ok (sortPools pf.pool, pf.mount) ∧
      (load_and_mount_pools env p w).1.registry = sortPools pf.pool ∧
      (load_and_mount_pools env p w).1.events =
        w.events ++ [Event.validationDone] ++
          ((sortPools pf.pool).filter (fun q => !q.is_removable)).map
            (fun q => Event.probe q.pool_id) ++ [Event.publish]) := by
  cases hex : env.pathExists p with
  | false =>
    left
    have h1 : load_and_mount_pools env p w = bootstrap env p w := by
      simp [load_and_mount_pools, hex]
    rw [h1]
    exact ⟨bootstrap_registry env p w, bootstrap_events env p w, bootstrap_isError env p w⟩
  | true =>
    cases hread : env.readToString p with
    | error e => left; simp [load_and_mount_pools, hex, hread, addLog]
    | ok content =>
      cases hparse : env.parseToml content with
      | error e => left; simp [load_and_mount_pools, hex, hread, hparse, addLog]
      | ok pf =>
        cases hne : pf.pool.isEmpty with
        | true => left; simp [load_and_mount_pools, hex, hread, hparse, hne, addLog]
        | false =>
          cases hseq : idsSequential (sortPools pf.pool) with
          | false =>
            left; simp [load_and_mount_pools, hex, hread, hparse, hne, hseq, addLog]
          | true =>
            right
            refine ⟨pf, ?_, ?_, ?_⟩ <;>
              simp [load_and_mount_pools, hex, hread, hparse, hne, hseq, addLog,
                foldl_reachCheck_events, List.append_assoc]

/-- Any error outcome leaves the registry in its prior state. -/
lemma load_error_registry (env : Env) (p : String) (w : World) (e : PoolError)
    (h : (load_and_mount_pools env p w).2 = Except.error e) :
    (load_and_mount_pools env p w).1.registry = w.registry := by
  rcases load_master env p w with ⟨hr, _, _⟩ | ⟨pf, hok, _, _⟩
  · exact hr
  · rw [h] at hok; simp at hok

/-- On success the registry holds exactly the returned pool list. -/
lemma load_ok_registry (env : Env) (p : String) (w : World)
    (pm : List Pool × List Mount)
    (h : (load_and_mount_pools env p w).2 = Except.ok pm) :
    (load_and_mount_pools env p w).1.registry = pm.1 := by
  rcases load_master env p w with ⟨_, _, e, he⟩ | ⟨pf, hok, hreg, _⟩
  · rw [h] at he; simp at he
  · rw [h] at hok
    injection hok with h2
    rw [hreg, h2]

/-- The returned result does not depend on the incoming world. -/
lemma load_snd_world_indep (env : Env) (p : String) (w w' : World) :
    (load_and_mount_pools env p w).2 = (load_and_mount_pools env p w').2 := by
  cases hex : env.pathExists p with
  | false =>
    have h1 : load_and_mount_pools env p w = bootstrap env p w := by
      simp [load_and_mount_pools, hex]
    have h2 : load_and_mount_pools env p w' = bootstrap env p w' := by
      simp [load_and_mount_pools, hex]
    rw [h1, h2]
    exact bootstrap_snd_indep env p w w'
  | true =>
    cases hread : env.readToString p with
    | error e => simp [load_and_mount_pools, hex, hread]
    | ok content =>
      cases hparse : env.parseToml content with
      | error e => simp [load_and_mount_pools, hex, hread, hparse]
      | ok pf =>
        cases hne : pf.pool.isEmpty with
        | true => simp [load_and_mount_pools, hex, hread, hparse, hne]
        | false =>
          cases hseq : idsSequential (sortPools pf.pool) <;>
            simp [load_and_mount_pools, hex, hread, hparse, hne, hseq]

/-- The returned result does not depend on the stat oracle: reachability
outcomes never make the load fail or change what it returns. -/
lemma load_snd_statMeta_indep (env : Env) (f : String → Except Unit Meta)
    (p : String) (w : World) :
    (load_and_mount_pools { env with statMeta := f } p w).2 =
      (load_and_mount_pools env p w).2 := by
  cases hex : env.pathExists p with
  | false =>
    have h1 : load_and_mount_pools { env with statMeta := f } p w =
        bootstrap { env with statMeta := f } p w := by
      simp [load_and_mount_pools, hex]
    have h2 : load_and_mount_pools env p w = bootstrap env p w := by
      simp [load_and_mount_pools, hex]
    rw [h1, h2]
    unfold bootstrap writeDefault
    cases hpar : env.parent p with
    | none => cases hw : env.writeFile p generate_default_pools_config <;> simp [hw, addLog]
    | some par =>
      cases hc : env.createDirAll par with
      | error e => simp [hc, addLog]
      | ok u =>
        cases hw : env.writeFile p generate_default_pools_config <;> simp [hc, hw, addLog]
  | true =>
    cases hread : env.readToString p with
    | error e => simp [load_and_mount_pools, hex, hread]
    | ok content =>
      cases hparse : env.parseToml content with
      | error e => simp [load_and_mount_pools, hex, hread, hparse]
      | ok pf =>
        cases hne : pf.pool.isEmpty with
        | true => simp [load_and_mount_pools, hex, hread, hparse, hne]
        | false =>
          cases hseq : idsSequential (sortPools pf.pool) <;>
            simp [load_and_mount_pools, hex, hread, hparse, hne, hseq]

/-- A non-removable pool declared with id 2. -/
def poolA : Pool := { pool_id := 2, is_removable := false, path := "/mnt/a" }

/-- A removable pool declared with id 1. -/
def poolB : Pool := { pool_id := 1, is_removable := true, path := "/mnt/b" }

/-- A non-removable pool declared with id 1. -/
def poolC : Pool := { pool_id := 1, is_removable := false, path := "/mnt/c" }

/-- A configuration whose ids 2, 1 are a permutation of 1..2. -/
def pfEx : PoolsFile := { pool := [poolA, poolB], mount := [] }

/-- A configuration with a duplicated id 1. -/
def pfDup : PoolsFile := { pool := [poolC, poolC], mount := [] }

/-- A mount entry referencing the undeclared pool id 7. -/
def mountX : Mount := { pool_id := 7, mount_point := "/mp" }

/-- A valid one-pool configuration with a dangling mount reference. -/
def pfDangling : PoolsFile := { pool := [poolC], mount := [mountX] }

/-- An oracle environment where the file exists and parses to `pfEx`. -/
def envOk : Env :=
  { pathExists := fun _ => true
    parent := fun _ => some "/etc"
    createDirAll := fun _ => Except.ok ()
    writeFile := fun _ _ => Except.ok ()
    readToString := fun _ => Except.ok "cfg"
    parseToml := fun _ => Except.ok pfEx
    statMeta := fun _ => Except.error () }

/-- Like `envOk` but parsing yields the duplicate-id configuration. -/
def envDup : Env := { envOk with parseToml := fun _ => Except.ok pfDup }

/-- Like `envOk` but parsing fails with a diagnostic. -/
def envParseErr : Env := { envOk with parseToml := fun _ => Except.error "bad" }

/-- Like `envOk` but parsing yields the empty pool collection. -/
def envEmpty : Env :=
  { envOk with parseToml := fun _ => Except.ok { pool := [], mount := [] } }

/-- Like `envOk` but the configuration path does not exist. -/
def envMissing : Env := { envOk with pathExists := fun _ => false }

/-- Like `envOk` but parsing yields the dangling-mount configuration. -/
def envDangling : Env := { envOk with parseToml := fun _ => Except.ok pfDangling }

/-- C1: for every non-empty pool collection whose pool ids form a
permutation of 1..N, `load_and_mount_pools` passes validation, and the
returned pool list and the published registry are the sorted pools,
ascending by `pool_id`. -/
theorem C1_permutation_validates_and_publishes_sorted
    (env : Env) (p content : String) (pf : PoolsFile) (w : World)
    (hex : env.pathExists p = true)
    (hread : env.readToString p = Except.ok content)
    (hparse : env.parseToml content = Except.ok pf)
    (hne : pf.pool ≠ [])
    (hperm : (pf.pool.map Pool.pool_id).Perm (List.range' 1 pf.pool.length)) :
    (load_and_mount_pools env p w).2 = Except.ok (sortPools pf.pool, pf.mount) ∧
    (sortPools pf.pool).Pairwise (fun a b => a.pool_id ≤ b.pool_id) ∧
    (load_and_mount_pools env p w).1.registry = sortPools pf.pool := by
  have hne' : pf.pool.isEmpty = false := by
    cases hp : pf.pool with
    | nil => exact absurd hp hne
    | cons a t => rfl
  have hseq : idsSequential (sortPools pf.pool) = true :=
    (idsSequential_sortPools_iff pf.pool).2 hperm
  have hok := load_ok_snd env p content pf w hex hread hparse hne' hseq
  exact ⟨hok, sortPools_sorted pf.pool, load_ok_registry env p w _ hok⟩

/-- Witness for C1 on a concrete two-pool permutation 2, 1. -/
theorem C1_witness :
    (load_and_mount_pools envOk "/cfg" emptyWorld).2 =
        Except.ok (sortPools pfEx.pool, pfEx.mount) ∧
      (sortPools pfEx.pool).Pairwise (fun a b => a.pool_id ≤ b.pool_id) ∧
      (load_and_mount_pools envOk "/cfg" emptyWorld).1.registry = sortPools pfEx.pool :=
  C1_permutation_validates_and_publishes_sorted envOk "/cfg" "cfg" pfEx emptyWorld
    rfl rfl rfl (by decide) (by decide)

/-- C2: a duplicate id, a gap between two declared ids, or a minimum id
other than 1 makes validation fail with `InvalidIdSequence`. -/
theorem C2_bad_id_sequence_rejected
    (env : Env) (p content : String) (pf : PoolsFile) (w : World)
    (hex : env.pathExists p = true)
    (hread : env.readToString p = Except.ok content)
    (hparse : env.parseToml content = Except.ok pf)
    (hne : pf.pool ≠ [])
    (hbad :
      ¬ (pf.pool.map Pool.pool_id).Nodup ∨
      (∃ k, (∃ a ∈ pf.pool.map Pool.pool_id, a < k) ∧
            (∃ b ∈ pf.pool.map Pool.pool_id, k < b) ∧
            k ∉ pf.pool.map Pool.pool_id) ∨
      (∃ m ∈ pf.pool.map Pool.pool_id,
        (∀ b ∈ pf.pool.map Pool.pool_id, m ≤ b) ∧ m ≠ 1)) :
    (load_and_mount_pools env p w).2 = Except.error PoolError.InvalidIdSequence := by
  have hne' : pf.pool.isEmpty = false := by
    cases hp : pf.pool with
    | nil => exact absurd hp hne
    | cons a t => rfl
  have hnp : ¬ (pf.pool.map Pool.pool_id).Perm (List.range' 1 pf.pool.length) := by
    intro hp
    have hmem : ∀ x, x ∈ pf.pool.map Pool.pool_id ↔ 1 ≤ x ∧ x < 1 + pf.pool.length := by
      intro x
      rw [hp.mem_iff, List.mem_range'_1]
    rcases hbad with hdup | ⟨k, ⟨a, ha, hak⟩, ⟨b, hb, hkb⟩, hk⟩ | ⟨m, hm, hmin, hm1⟩
    · exact hdup (hp.nodup_iff.2 (List.nodup_range' 1 pf.pool.length))
    · have h1 := (hmem a).1 ha
      have h2 := (hmem b).1 hb
      exact hk ((hmem k).2 ⟨by omega, by omega⟩)
    · have h1 := (hmem m).1 hm
      have hlen : 0 < pf.pool.length := List.length_pos.2 hne
      have h2 : (1 : Nat) ∈ pf.pool.map Pool.pool_id :=
        (hmem 1).2 ⟨Nat.le_refl 1, by omega⟩
      have h3 := hmin 1 h2
      omega
  have hseq : idsSequential (sortPools pf.pool) = false := by
    cases hq : idsSequential (sortPools pf.pool) with
    | false => rfl
    | true => exact absurd ((idsSequential_sortPools_iff pf.pool).1 hq) hnp
  exact load_invalid_snd env p content pf w hex hread hparse hne' hseq

/-- Witness for C2 on the concrete duplicate 1, 1. -/
theorem C2_witness :
    (load_and_mount_pools envDup "/cfg" emptyWorld).2 =
      Except.error PoolError.InvalidIdSequence :=
  C2_bad_id_sequence_rejected envDup "/cfg" "cfg" pfDup emptyWorld
    rfl rfl rfl (by decide) (Or.inl (by decide))

/-- C3: every error outcome leaves the registry exactly in its prior
state; no partial or incremental update occurs on failure. -/
theorem C3_error_leaves_registry_unchanged
    (env : Env) (p : String) (w : World) (e : PoolError)
    (h : (load_and_mount_pools env p w).2 = Except.error e) :
    (load_and_mount_pools env p w).1.registry = w.registry :=
  load_error_registry env p w e h

/-- Witness for C3 on a concrete parse failure. -/
theorem C3_witness :
    (load_and_mount_pools envParseErr "/cfg" emptyWorld).1.registry = emptyWorld.registry :=
  C3_error_leaves_registry_unchanged envParseErr "/cfg" emptyWorld
    (PoolError.Toml "bad") rfl

/-- C4: a missing path creates the parent directories, writes exactly the
default two-pool template, and fails with `MustConfigure` carrying the
path, without touching the registry. -/
theorem C4_missing_path_bootstraps
    (env : Env) (p par : String) (w : World)
    (hex : env.pathExists p = false)
    (hpar : env.parent p = some par)
    (hmk : env.createDirAll par = Except.ok ())
    (hwr : env.writeFile p generate_default_pools_config = Except.ok ()) :
    (load_and_mount_pools env p w).2 = Except.error (PoolError.MustConfigure p) ∧
    (load_and_mount_pools env p w).1.dirsCreated = w.dirsCreated ++ [par] ∧
    (load_and_mount_pools env p w).1.fsWrites =
      w.fsWrites ++ [(p, generate_default_pools_config)] ∧
    (load_and_mount_pools env p w).1.registry = w.registry := by
  refine ⟨?_, ?_, ?_, ?_⟩ <;>
    simp [load_and_mount_pools, bootstrap, writeDefault, hex, hpar, hmk, hwr, addLog]

/-- Witness for C4 on a concrete missing path. -/
theorem C4_witness :
    (load_and_mount_pools envMissing "/etc/pool.toml" emptyWorld).2 =
        Except.error (PoolError.MustConfigure "/etc/pool.toml") ∧
      (load_and_mount_pools envMissing "/etc/pool.toml" emptyWorld).1.dirsCreated =
        emptyWorld.dirsCreated ++ ["/etc"] ∧
      (load_and_mount_pools envMissing "/etc/pool.toml" emptyWorld).1.fsWrites =
        emptyWorld.fsWrites ++ [("/etc/pool.toml", generate_default_pools_config)] ∧
      (load_and_mount_pools envMissing "/etc/pool.toml" emptyWorld).1.registry =
        emptyWorld.registry :=
  C4_missing_path_bootstraps envMissing "/etc/pool.toml" "/etc" emptyWorld
    rfl rfl rfl rfl

/-- C5: an empty parsed pool collection fails with `EmptyPools`; the
id-sequence walk alone would accept the empty list, so the emptiness
check necessarily precedes the id-sequence check. -/
theorem C5_empty_pools_rejected_first
    (env : Env) (p content : String) (pf : PoolsFile) (w : World)
    (hex : env.pathExists p = true)
    (hread : env.readToString p = Except.ok content)
    (hparse : env.parseToml content = Except.ok pf)
    (hemp : pf.pool = []) :
    (load_and_mount_pools env p w).2 = Except.error PoolError.EmptyPools ∧
    idsSequential (sortPools pf.pool) = true := by
  constructor
  · simp [load_and_mount_pools, hex, hread, hparse, hemp]
  · rw [hemp]
    simp [idsSequential, sortPools, checkSeqFrom]

/-- Witness for C5 on a concrete empty configuration. -/
theorem C5_witness :
    (load_and_mount_pools envEmpty "/cfg" emptyWorld).2 =
        Except.error PoolError.EmptyPools ∧
      idsSequential (sortPools ([] : List Pool)) = true :=
  C5_empty_pools_rejected_first envEmpty "/cfg" "cfg"
    { pool := [], mount := [] } emptyWorld rfl rfl rfl rfl

/-- C6: per pool, a removable pool is skipped by the reachability check
with no warning; a non-removable pool whose path is unreachable or not a
directory logs exactly one warning; and no reachability outcome changes
the returned result of the load. -/
theorem C6_reachability_advisory_only :
    (∀ (env : Env) (w : World) (p : Pool), p.is_removable = true →
      reachCheck env w p = w) ∧
    (∀ (env : Env) (w : World) (p : Pool), p.is_removable = false →
      (env.statMeta p.path = Except.error () ∨
        ∃ meta, env.statMeta p.path = Except.ok meta ∧ meta.is_dir = false) →
      ∃ msg, (reachCheck env w p).logs = w.logs ++ [(LogLevel.warn, msg)]) ∧
    (∀ (env : Env) (f : String → Except Unit Meta) (p : String) (w : World),
      (load_and_mount_pools { env with statMeta := f } p w).2 =
        (load_and_mount_pools env p w).2) := by
  refine ⟨?_, ?_, load_snd_statMeta_indep⟩
  · intro env w p hp
    unfold reachCheck
    simp [hp]
  · intro env w p hp hcase
    rcases hcase with hs | ⟨meta, hs, hdir⟩
    · refine ⟨"Path for pool " ++ toString p.pool_id ++ " (" ++ p.path ++ ") is not reachable.", ?_⟩
      unfold reachCheck
      simp [hp, hs, addLog]
    · refine ⟨"Path for pool " ++ toString p.pool_id ++ " (" ++ p.path ++ ") exists but is not a directory.", ?_⟩
      unfold reachCheck
      simp [hp, hs, hdir, addLog]

/-- Witness for C6 on concrete removable and unreachable pools. -/
theorem C6_witness :
    reachCheck envOk emptyWorld poolB = emptyWorld ∧
    (∃ msg, (reachCheck envOk emptyWorld poolA).logs =
      emptyWorld.logs ++ [(LogLevel.warn, msg)]) ∧
    (load_and_mount_pools { envOk with statMeta := fun _ => Except.ok { is_dir := true } }
        "/cfg" emptyWorld).2 =
      (load_and_mount_pools envOk "/cfg" emptyWorld).2 :=
  ⟨C6_reachability_advisory_only.1 envOk emptyWorld poolB rfl,
   C6_reachability_advisory_only.2.1 envOk emptyWorld poolA rfl (Or.inl rfl),
   C6_reachability_advisory_only.2.2 envOk (fun _ => Except.ok { is_dir := true })
     "/cfg" emptyWorld⟩

/-- C7: in every execution, either the load fails and no probe or publish
event occurred, or validation completes first, then one probe per
non-removable pool runs in ascending `pool_id` order, and the publish
event comes after all probes. -/
theorem C7_validation_probes_publish_order
    (env : Env) (p : String) (w : World) (hev : w.events = []) :
    ((∃ e, (load_and_mount_pools env p w).2 = Except.error e) →
      (load_and_mount_pools env p w).1.events = []) ∧
    (∀ pools mounts, (load_and_mount_pools env p w).2 = Except.ok (pools, mounts) →
      (load_and_mount_pools env p w).1.events =
          [Event.validationDone] ++
            (pools.filter (fun q => !q.is_removable)).map (fun q => Event.probe q.pool_id) ++
            [Event.publish] ∧
        ((pools.filter (fun q => !q.is_removable)).map Pool.pool_id).Pairwise (· ≤ ·)) := by
  rcases load_master env p w with ⟨_, hevs, e0, he⟩ | ⟨pf, hok, _, hevs⟩
  · constructor
    · intro _
      rw [hevs, hev]
    · intro pools mounts h
      rw [h] at he
      simp at he
  · constructor
    · rintro ⟨e0, he⟩
      rw [hok] at he
      simp at he
    · intro pools mounts h
      rw [hok] at h
      injection h with h2
      have hp : sortPools pf.pool = pools := congrArg Prod.fst h2
      constructor
      · rw [hevs, hev, ← hp]
        simp
      · rw [← hp]
        exact List.pairwise_map.2 ((sortPools_sorted pf.pool).filter _)

/-- On the concrete dangling-mount environment, the load succeeds with
the single declared pool and the parsed mounts. -/
lemma load_envDangling_eval (p : String) :
    (load_and_mount_pools envDangling p emptyWorld).2 =
      Except.ok ([poolC], [mountX]) := by
  simp [load_and_mount_pools, envDangling, envOk, pfDangling, sortPools, idsSequential,
    checkSeqFrom, poolC, addLog]

/-- Witness for C7 on a concrete successful one-pool load. -/
theorem C7_witness :
    (load_and_mount_pools envDangling "/cfg" emptyWorld).1.events =
        [Event.validationDone] ++
          ([poolC].filter (fun q => !q.is_removable)).map (fun q => Event.probe q.pool_id) ++
          [Event.publish] ∧
      (([poolC].filter (fun q => !q.is_removable)).map Pool.pool_id).Pairwise (· ≤ ·) :=
  (C7_validation_probes_publish_order envDangling "/cfg" emptyWorld rfl).2
    [poolC] [mountX] (load_envDangling_eval "/cfg")

/-- C8: a second call on the same valid configuration returns the same
result, and the registry afterwards holds exactly the second call's
returned pools. -/
theorem C8_second_call_same_result_overwrites
    (env : Env) (p : String) (w : World) (pm : List Pool × List Mount)
    (h : (load_and_mount_pools env p w).2 = Except.ok pm) :
    (load_and_mount_pools env p (load_and_mount_pools env p w).1).2 = Except.ok pm ∧
    (load_and_mount_pools env p (load_and_mount_pools env p w).1).1.registry = pm.1 := by
  have h2 : (load_and_mount_pools env p (load_and_mount_pools env p w).1).2 =
      Except.ok pm := by
    rw [load_snd_world_indep env p (load_and_mount_pools env p w).1 w]
    exact h
  exact ⟨h2, load_ok_registry env p _ pm h2⟩

/-- Witness for C8 on the concrete one-pool environment. -/
theorem C8_witness :
    (load_and_mount_pools envDangling "/pools.toml"
        (load_and_mount_pools envDangling "/pools.toml" emptyWorld).1).2 =
        Except.ok ([poolC], [mountX]) ∧
      (load_and_mount_pools envDangling "/pools.toml"
        (load_and_mount_pools envDangling "/pools.toml" emptyWorld).1).1.registry =
        [poolC] :=
  C8_second_call_same_result_overwrites envDangling "/pools.toml" emptyWorld
    ([poolC], [mountX]) (load_envDangling_eval "/pools.toml")

/-- C9: an absent mount section parses to the empty mount collection,
and a mount entry whose `pool_id` references no declared pool does not
make the load fail. -/
theorem C9_mount_defaults_and_dangling_reference_allowed :
    (∀ raw : RawPoolsFile, raw.mount = none → (parsePoolsFile raw).mount = []) ∧
    (∀ (env : Env) (p content : String) (pf : PoolsFile) (w : World) (m : Mount),
      env.pathExists p = true →
      env.readToString p = Except.ok content →
      env.parseToml content = Except.ok pf →
      pf.pool ≠ [] →
      (pf.pool.map Pool.pool_id).Perm (List.range' 1 pf.pool.length) →
      m ∈ pf.mount →
      (∀ q ∈ pf.pool, q.pool_id ≠ m.pool_id) →
      (load_and_mount_pools env p w).2 = Except.ok (sortPools pf.pool, pf.mount)) := by
  constructor
  · intro raw hr
    simp [parsePoolsFile, hr]
  · intro env p content pf w m hex hread hparse hne hperm hmem hdangling
    have hne' : pf.pool.isEmpty = false := by
      cases hp : pf.pool with
      | nil => exact absurd hp hne
      | cons a t => rfl
    exact load_ok_snd env p content pf w hex hread hparse hne'
      ((idsSequential_sortPools_iff pf.pool).2 hperm)

/-- Witness for C9 on a concrete absent mount section and a concrete
dangling reference to pool id 7. -/
theorem C9_witness :
    (parsePoolsFile { pool := [poolC], mount := none }).mount = [] ∧
    (load_and_mount_pools envDangling "/cfg" emptyWorld).2 =
      Except.ok (sortPools pfDangling.pool, pfDangling.mount) :=
  ⟨C9_mount_defaults_and_dangling_reference_allowed.1 { pool := [poolC], mount := none } rfl,
   C9_mount_defaults_and_dangling_reference_allowed.2 envDangling "/cfg" "cfg"
     pfDangling emptyWorld mountX rfl rfl rfl (by decide) (by decide) (by decide) (by decide)⟩

/-- C10: after every successful call, the registry contents equal the
pool list returned to the caller. -/
theorem C10_registry_matches_returned_pools
    (env : Env) (p : String) (w : World) (pm : List Pool × List Mount)
    (h : (load_and_mount_pools env p w).2 = Except.ok pm) :
    (load_and_mount_pools env p w).1.registry = pm.1 :=
  load_ok_registry env p w pm h

/-- Witness for C10 on the concrete one-pool environment. -/
theorem C10_witness :
    (load_and_mount_pools envDangling "/cfg2" emptyWorld).1.registry = [poolC] :=
  C10_registry_matches_returned_pools envDangling "/cfg2" emptyWorld
    ([poolC], [mountX]) (load_envDangling_eval "/cfg2")

end RfsPool
